import Mathlib

/-!
Verification of the contacts/users REST backend (FastAPI + SQLAlchemy).

The development shallowly embeds the data model of the repository
(`src/database/models.py`), repository layer (`src/repository/users.py`,
`src/repository/contacts.py`), auth service (`src/services/auth.py`) and the
auth routes (`src/routes/auth.py`) as pure Lean functions over explicit list
states, and proves the claims of the specification about them.

Database tables are lists of rows; an ORM mutation of a fetched row is
modelled by updating the first row matching the fetch predicate.
-/

namespace ContactsApp

/-- Calendar date, as the Python `datetime.date` (year, month, day). -/
structure PDate where
  year : Nat
  month : Nat
  day : Nat
  deriving DecidableEq, Repr

/-- Gregorian leap-year rule used by `datetime.date` arithmetic. -/
def isLeapYear (y : Nat) : Bool :=
  (y % 4 == 0 && y % 100 != 0) || (y % 400 == 0)

/-- Number of days in a month of a given year. -/
def daysInMonth (y m : Nat) : Nat :=
  if m == 2 then (if isLeapYear y then 29 else 28)
  else if m == 4 || m == 6 || m == 9 || m == 11 then 30
  else 31

/-- The successor day of a calendar date. -/
def nextDay (d : PDate) : PDate :=
  if d.day < daysInMonth d.year d.month then { d with day := d.day + 1 }
  else if d.month < 12 then { d with month := d.month + 1, day := 1 }
  else { year := d.year + 1, month := 1, day := 1 }

/-- `d + timedelta(days := n)`. -/
def addDays (d : PDate) : Nat → PDate
  | 0 => d
  | n + 1 => nextDay (addDays d n)

/-- Row of the `users_info` table (`src/database/models.py`, class `User`).
Timestamps are omitted; `refresh_token` and `avatar` are nullable columns,
`confirmed` defaults to `False`. -/
structure UserR where
  id : Nat
  name : String
  last_name : String
  day_of_born : PDate
  email : String
  password : String
  description : String
  avatar : Option String
  refresh_token : Option String
  confirmed : Bool
  deriving DecidableEq, Repr

/-- Row of the `contacts` table (`src/database/models.py`, class `Contact`).
`user_id` is a nullable foreign key to `users_info.id`. -/
structure ContactR where
  id : Nat
  phone_number : String
  user_id : Option Nat
  deriving DecidableEq, Repr

/-- Request body `UserModel` (`src/schemas.py`): scalar profile fields plus a
list of contact ids. -/
structure UserModelR where
  name : String
  last_name : String
  day_of_born : PDate
  email : String
  description : String
  password : String
  contacts : List Nat
  deriving DecidableEq, Repr

/-- Request body `ContactModel` (`src/schemas.py`). -/
structure ContactModelR where
  phone_number : String
  deriving DecidableEq, Repr

/-- The persistent store: the two tables of the data model. -/
structure DBState where
  users : List UserR
  contacts : List ContactR
  deriving DecidableEq, Repr

/-- A FastAPI `HTTPException`: status code and detail message. -/
structure HTTPException where
  status_code : Nat
  detail : String
  deriving DecidableEq, Repr

/-- Update the first element satisfying `p` with `f`; the list-model analogue
of mutating the single ORM object returned by `.first()` and committing. -/
def updateFirstBy {α : Type} (p : α → Bool) (f : α → α) : List α → List α
  | [] => []
  | a :: as => if p a then f a :: as else a :: updateFirstBy p f as

/-- Delete the first element satisfying `p`; the list-model analogue of
`db.delete(obj)` on the object returned by `.first()`. -/
def removeFirstBy {α : Type} (p : α → Bool) : List α → List α
  | [] => []
  | a :: as => if p a then as else a :: removeFirstBy p as

/-- `find_user_by_email` (`src/repository/users.py`): first user whose email
matches, or none. -/
def find_user_by_email (user_email : String) (db : List UserR) : Option UserR :=
  db.find? (fun u => u.email == user_email)

/-- The row filter of `find_next_7_days_birthdays`
(`src/repository/users.py` lines 147-154), translated literally: the Python
`|` binds tighter than `==`, so the month test compares against the bitwise
OR of the two boundary months, and the day tests compare the raw day
numbers. -/
def birthdayRowFilter (today_date seventh_day_date : PDate) (u : UserR) : Bool :=
  (u.day_of_born.month == (today_date.month ||| seventh_day_date.month))
    && (today_date.day ≤ u.day_of_born.day)
    && (u.day_of_born.day ≤ seventh_day_date.day)

/-- `find_next_7_days_birthdays` (`src/repository/users.py`):
`today_date := date.today() + 1 day`, `seventh_day_date := today_date + 7 days`,
then the SQL filter above over the users table. `today` is passed explicitly
in place of `date.today()`. -/
def find_next_7_days_birthdays (today : PDate) (users : List UserR) : List UserR :=
  let today_date := addDays today 1
  let seventh_day_date := addDays today_date 7
  users.filter (birthdayRowFilter today_date seventh_day_date)

/-- Modelled from the spec: membership of a birthday (month/day of `dob`) in
the query window `[tomorrow, tomorrow + 7]` — the eight calendar days
`today+1, …, today+8` — "irrespective of which calendar month `D` is in". -/
def specBirthdayInWindow (today : PDate) (dob : PDate) : Bool :=
  (List.range 8).any (fun i =>
    let d := addDays (addDays today 1) i
    d.month == dob.month && d.day == dob.day)

/-- `update_token` (`src/repository/users.py`): set `user.refresh_token` on the
fetched ORM object and commit — in the list model, update the first row equal
to the fetched record. -/
def update_token (user : UserR) (tok : Option String) (db : List UserR) : List UserR :=
  updateFirstBy (fun u => u == user) (fun u => { u with refresh_token := tok }) db

/-- Repository `confirmed_email` (`src/repository/users.py`): fetch the user by
email, set `confirmed := True`, commit. -/
def confirmed_email (email : String) (db : List UserR) : List UserR :=
  updateFirstBy (fun u => u.email == email) (fun u => { u with confirmed := true }) db

/-- The scalar-field assignments of `update_user` (`src/repository/users.py`
lines 79-83). -/
def applyUserScalars (body : UserModelR) (u : UserR) : UserR :=
  { u with
    name := body.name
    last_name := body.last_name
    day_of_born := body.day_of_born
    email := body.email
    description := body.description }

/-- `update_user` (`src/repository/users.py`): fetch the user with
`User.id == user_id AND User.id == caller.id`; if found, assign the scalar
fields and commit. The queried `Contact` rows are assigned to the attribute
`phones`, which is not a mapped attribute of `User` (the relationship backref
on `Contact.user` is named `contacts`), so the assignment is a plain Python
attribute write that the commit does not persist: the contacts table is
untouched. -/
def update_user (user_id : Nat) (body : UserModelR) (st : DBState) (user : UserR) :
    Option UserR × DBState :=
  match st.users.find? (fun u => u.id == user_id && u.id == user.id) with
  | none => (none, st)
  | some u =>
      (some (applyUserScalars body u),
        { st with users := (updateFirstBy (fun v => v.id == user_id && v.id == user.id)
            (applyUserScalars body) st.users) })

/-- `create_user` (`src/repository/users.py`): build a `User` from the body.
`confirmed` and `refresh_token` take their column defaults (`False`, null);
`avatar` comes from the Gravatar lookup (or null on failure) and is passed in.
The constructor argument `contacts=contacts` sets the mapped backref
collection `User.contacts`, so committing writes `user_id := new_id` on each
selected contact row. The generated primary key is passed as `new_id`. -/
def create_user (new_id : Nat) (avatar : Option String) (body : UserModelR)
    (st : DBState) : UserR × DBState :=
  let new_user : UserR :=
    { id := new_id
      name := body.name
      last_name := body.last_name
      day_of_born := body.day_of_born
      email := body.email
      password := body.password
      description := body.description
      avatar := avatar
      refresh_token := none
      confirmed := false }
  (new_user,
    { users := st.users ++ [new_user]
      contacts := st.contacts.map (fun c =>
        if body.contacts.contains c.id then { c with user_id := some new_id } else c) })

/-- The ownership filter of `update_contact` / `remove_contact`
(`src/repository/contacts.py`): `Contact.id == contact_id AND
Contact.user_id == user.id`. A null `user_id` matches no caller. -/
def contactOwnedFilter (contact_id : Nat) (uid : Nat) (c : ContactR) : Bool :=
  c.id == contact_id && c.user_id == some uid

/-- `create_contact` (`src/repository/contacts.py`): inserts
`Contact(phone_number=body.phone_number)` — no `user_id` is set, so the new
foreign key of the new row is null. The generated primary key is passed as `new_id`. -/
def create_contact (new_id : Nat) (body : ContactModelR) (db : List ContactR) :
    ContactR × List ContactR :=
  let contact : ContactR := { id := new_id, phone_number := body.phone_number, user_id := none }
  (contact, db ++ [contact])

/-- `update_contact` (`src/repository/contacts.py`): fetch by the ownership
filter; if found, set the phone number and commit; otherwise return None. -/
def update_contact (contact_id : Nat) (body : ContactModelR) (db : List ContactR)
    (user : UserR) : Option ContactR × List ContactR :=
  match db.find? (contactOwnedFilter contact_id user.id) with
  | none => (none, db)
  | some c =>
      (some { c with phone_number := body.phone_number },
        updateFirstBy (contactOwnedFilter contact_id user.id)
          (fun x => { x with phone_number := body.phone_number }) db)

/-- `remove_contact` (`src/repository/contacts.py`): fetch by the ownership
filter; if found, delete the row and commit; otherwise return None. -/
def remove_contact (contact_id : Nat) (db : List ContactR) (user : UserR) :
    Option ContactR × List ContactR :=
  match db.find? (contactOwnedFilter contact_id user.id) with
  | none => (none, db)
  | some c => (some c, removeFirstBy (contactOwnedFilter contact_id user.id) db)

/-- Modelled from the spec: `passlib` bcrypt hashing (`Auth.get_password_hash`,
`src/services/auth.py`), "one-way salted hash". The external library is
modelled deterministically with a fixed salt: the hash is the bcrypt-style
prefix followed by the password, which preserves the two properties the code
relies on — the hash of `p` verifies against `p`, and is never `p` itself. -/
def get_password_hash (password : String) : String :=
  "$2b$12$" ++ password

/-- Modelled from the spec: `Auth.verify_password` (`src/services/auth.py`),
the verify primitive of the hashing library — a hash verifies against exactly the
plaintext it was produced from. -/
def verify_password (plain_password hashed_password : String) : Bool :=
  hashed_password == get_password_hash plain_password

/-- A signed token: the claims written by the `create_*_token` methods of
`Auth` (`src/services/auth.py`) — `sub`, `iat`, `exp`, `scope` — plus the
signing key. Time is seconds since the epoch. -/
structure Jwt where
  sub : String
  iat : Nat
  exp : Nat
  scope : String
  key : String
  deriving DecidableEq, Repr

/-- The configured signing key (`settings.secret_key`), an opaque constant. -/
def SECRET_KEY : String := "configured-secret-signing-key"

/-- Default access-token lifetime: 15 minutes, in seconds. -/
def ACCESS_TTL : Nat := 15 * 60

/-- Default refresh-token (and email-token) lifetime: 7 days, in seconds. -/
def REFRESH_TTL : Nat := 7 * 24 * 60 * 60

/-- Modelled from the spec: `jwt.decode` of the external `jose` library —
"verifies signature and expiry". Symbolically, signature verification
compares the signing key of the token against the expected key, and the token is
expired when `exp` lies strictly before `now`; any failure raises `JWTError`
(here, an error message). -/
def jwt_decode (token : Jwt) (key : String) (now : Nat) : Except String Jwt :=
  if token.key ≠ key then .error "Signature verification failed"
  else if token.exp < now then .error "Signature has expired"
  else .ok token

/-- `Auth.create_access_token` (`src/services/auth.py`): expiry is
`now + expires_delta` seconds when a truthy delta is given, else 15 minutes;
scope is `access_token`. `now` stands for `datetime.utcnow()`. -/
def create_access_token (sub : String) (expires_delta : Option Nat) (now : Nat) : Jwt :=
  let expire :=
    match expires_delta with
    | some d => if d = 0 then now + ACCESS_TTL else now + d
    | none => now + ACCESS_TTL
  { sub := sub, iat := now, exp := expire, scope := "access_token", key := SECRET_KEY }

/-- `Auth.create_refresh_token` (`src/services/auth.py`): expiry is
`now + expires_delta` seconds when a truthy delta is given, else 7 days;
scope is `refresh_token`. -/
def create_refresh_token (sub : String) (expires_delta : Option Nat) (now : Nat) : Jwt :=
  let expire :=
    match expires_delta with
    | some d => if d = 0 then now + REFRESH_TTL else now + d
    | none => now + REFRESH_TTL
  { sub := sub, iat := now, exp := expire, scope := "refresh_token", key := SECRET_KEY }

/-- `Auth.create_email_token` (`src/services/auth.py`): expiry 7 days, scope
`email_token`. -/
def create_email_token (sub : String) (now : Nat) : Jwt :=
  { sub := sub, iat := now, exp := now + REFRESH_TTL, scope := "email_token", key := SECRET_KEY }

/-- `Auth.decode_refresh_token` (`src/services/auth.py`): decode; on
`JWTError` raise 401 "Could not validate credentials"; on a scope other than
`refresh_token` raise 401 "Invalid scope for token"; else return `sub`. -/
def decode_refresh_token (token : Jwt) (now : Nat) : Except HTTPException String :=
  match jwt_decode token SECRET_KEY now with
  | .error _ => .error { status_code := 401, detail := "Could not validate credentials" }
  | .ok payload =>
      if payload.scope = "refresh_token" then .ok payload.sub
      else .error { status_code := 401, detail := "Invalid scope for token" }

/-- `Auth.get_email_from_token` (`src/services/auth.py`): decode; on
`JWTError` raise 422 "Invalid token for email verification"; on a scope other
than `email_token` raise 401 "Invalid scope for token"; else return `sub`. -/
def get_email_from_token (token : Jwt) (now : Nat) : Except HTTPException String :=
  match jwt_decode token SECRET_KEY now with
  | .error _ => .error { status_code := 422, detail := "Invalid token for email verification" }
  | .ok payload =>
      if payload.scope = "email_token" then .ok payload.sub
      else .error { status_code := 401, detail := "Invalid scope for token" }

/-- Outcome of the `signup` route. -/
inductive SignupResult where
  | conflict (e : HTTPException)
  | created (user : UserR) (detail : String)
  deriving DecidableEq, Repr

/-- `signup` route (`src/routes/auth.py`): 409 if the email is registered;
otherwise replace the password of the body with its hash, create the user, and
schedule the confirmation email (a background task, not part of the state).
The generated id and Gravatar result are passed in. -/
def signup (new_id : Nat) (avatar : Option String) (body : UserModelR) (st : DBState) :
    SignupResult × DBState :=
  match find_user_by_email body.email st.users with
  | some _ => (.conflict { status_code := 409, detail := "Account already exists" }, st)
  | none =>
      let body2 := { body with password := get_password_hash body.password }
      let (new_user, st2) := create_user new_id avatar body2 st
      (.created new_user "User successfully created. Check your email for confirmation.", st2)

/-- Outcome of the `refresh_token` route. -/
inductive RefreshOutcome where
  | ok (access refresh : String)
  | error (e : HTTPException)
  | crash
  deriving DecidableEq, Repr

/-- `refresh_token` route (`src/routes/auth.py`): `email` is the result of
`decode_refresh_token` on the presented bearer token `tok`; fetch the user by
email (`crash` stands for the unguarded attribute access when no user
exists); if the stored token differs from the presented one, null the stored
token and raise 401; otherwise store a fresh refresh token and return the new
pair. The freshly created token strings are passed as `newAccess` /
`newRefresh`. -/
def refresh_token_route (email tok newAccess newRefresh : String) (db : List UserR) :
    RefreshOutcome × List UserR :=
  match find_user_by_email email db with
  | none => (.crash, db)
  | some user =>
      if user.refresh_token ≠ some tok then
        (.error { status_code := 401, detail := "Invalid refresh token" },
          update_token user none db)
      else
        (.ok newAccess newRefresh, update_token user (some newRefresh) db)

/-- Outcome of the `confirmed_email` route. -/
inductive ConfirmOutcome where
  | badRequest (e : HTTPException)
  | alreadyConfirmed
  | emailConfirmed
  deriving DecidableEq, Repr

/-- `confirmed_email` route (`src/routes/auth.py`): `email` is the result of
`get_email_from_token`; 400 if no user has that email; the "already
confirmed" message if the user is confirmed; otherwise flip the flag via the
repository. -/
def confirmed_email_route (email : String) (db : List UserR) : ConfirmOutcome × List UserR :=
  match find_user_by_email email db with
  | none => (.badRequest { status_code := 400, detail := "Verification error" }, db)
  | some user =>
      if user.confirmed then (.alreadyConfirmed, db)
      else (.emailConfirmed, confirmed_email email db)

/-- `request_email` route (`src/routes/auth.py`): returns the "already
confirmed" message for a confirmed user; otherwise (unknown email, or an
unconfirmed user, for whom a confirmation mail is scheduled) the generic
acknowledgment. -/
def request_email_route (email : String) (db : List UserR) : String :=
  match find_user_by_email email db with
  | some user =>
      if user.confirmed then "Your email is already confirmed"
      else "Check your email for confirmation"
  | none => "Check your email for confirmation"

/-! ### Helper lemmas about the list model -/

theorem length_updateFirstBy {α : Type} (p : α → Bool) (f : α → α) (l : List α) :
    (updateFirstBy p f l).length = l.length := by
  induction l with
  | nil => rfl
  | cons a as ih => cases hp : p a <;> simp [updateFirstBy, hp, ih]

theorem getElem?_updateFirstBy {α : Type} (p : α → Bool) (f : α → α) (l : List α) (i : Nat) :
    (updateFirstBy p f l)[i]? = l[i]? ∨ (updateFirstBy p f l)[i]? = (l[i]?).map f := by
  induction l generalizing i with
  | nil => left; rfl
  | cons a as ih =>
    cases hp : p a
    · cases i with
      | zero => left; simp [updateFirstBy, hp]
      | succ n => simpa [updateFirstBy, hp] using ih n
    · cases i with
      | zero => right; simp [updateFirstBy, hp]
      | succ n => left; simp [updateFirstBy, hp]

theorem find?_updateFirstBy_same {α : Type} (p : α → Bool) (f : α → α) (l : List α) (u : α)
    (hf : l.find? p = some u) (hp : ∀ v, p (f v) = p v) :
    (updateFirstBy p f l).find? p = some (f u) := by
  induction l with
  | nil => cases hf
  | cons a as ih =>
    cases hpa : p a
    · rw [List.find?_cons_of_neg _ (by simp [hpa])] at hf
      have hfa : p (f a) = false := by rw [hp]; exact hpa
      simp only [updateFirstBy, hpa, Bool.false_eq_true, if_false]
      rw [List.find?_cons_of_neg _ (by simp [hpa])]
      exact ih hf
    · rw [List.find?_cons_of_pos _ hpa] at hf
      have hu : u = a := by injection hf with h; exact h.symm
      subst hu
      simp only [updateFirstBy, hpa, if_true]
      exact List.find?_cons_of_pos _ (by rw [hp]; exact hpa)

theorem find?_updateFirstBy_eqkey {α : Type} [DecidableEq α] (p : α → Bool) (f : α → α)
    (l : List α) (u : α) (hf : l.find? p = some u) (hp : ∀ v, p (f v) = p v) :
    (updateFirstBy (fun x => x == u) f l).find? p = some (f u) := by
  induction l with
  | nil => cases hf
  | cons a as ih =>
    have hu : p u = true := List.find?_some hf
    cases hpa : p a
    · rw [List.find?_cons_of_neg _ (by simp [hpa])] at hf
      have hne : (a == u) = false := by
        apply beq_eq_false_iff_ne.mpr
        intro he
        rw [he, hu] at hpa
        cases hpa
      simp only [updateFirstBy, hne, Bool.false_eq_true, if_false]
      rw [List.find?_cons_of_neg _ (by simp [hpa])]
      exact ih hf
    · rw [List.find?_cons_of_pos _ hpa] at hf
      have hua : u = a := by injection hf with h; exact h.symm
      subst hua
      simp only [updateFirstBy, beq_self_eq_true, if_true]
      exact List.find?_cons_of_pos _ (by rw [hp]; exact hpa)

theorem updateFirstBy_eq_self {α : Type} (q : α → Bool) (f : α → α) (l : List α)
    (h : ∀ x, l.find? q = some x → f x = x) : updateFirstBy q f l = l := by
  induction l with
  | nil => rfl
  | cons a as ih =>
    cases hq : q a
    · simp only [updateFirstBy, hq, Bool.false_eq_true, if_false, List.cons.injEq, true_and]
      exact ih (fun x hx => h x (by rw [List.find?_cons_of_neg _ (by simp [hq])]; exact hx))
    · simp only [updateFirstBy, hq, if_true, List.cons.injEq, and_true]
      exact h a (List.find?_cons_of_pos _ hq)

/-- Rejection path of the `refresh_token` route: when the found user holds a
stored refresh token different from the presented one, the route returns the
401 error and nulls the stored token. -/
theorem refresh_reject_eq (db : List UserR) (email tok a r : String) (u : UserR)
    (hfind : find_user_by_email email db = some u)
    (hne : u.refresh_token ≠ some tok) :
    refresh_token_route email tok a r db
      = (.error { status_code := 401, detail := "Invalid refresh token" },
         update_token u none db) := by
  unfold refresh_token_route
  rw [hfind]
  simp [hne]

/-! ### The claims -/

/-- Claim C1 (code bug evidence): for `today = 2023-01-28` the window computed
by `find_next_7_days_birthdays` is `[2023-01-29, 2023-02-05]`, and a user born
on February 1 falls inside it (`specBirthdayInWindow` is `true`); yet the query
returns no rows, because the month filter compares against the bitwise OR
`1 ||| 2 = 3` and the day filter demands `29 ≤ day ∧ day ≤ 5`, which is empty.
The claim — inclusion iff the birthday falls in the window, also across a
month boundary — is therefore violated by the code. -/
theorem c1_birthday_window_code_bug :
    specBirthdayInWindow ⟨2023, 1, 28⟩ ⟨1990, 2, 1⟩ = true
    ∧ find_next_7_days_birthdays ⟨2023, 1, 28⟩
        [{ id := 1, name := "Ann", last_name := "Lee", day_of_born := ⟨1990, 2, 1⟩,
           email := "ann@example.com", password := "h", description := "d",
           avatar := none, refresh_token := none, confirmed := true }] = [] := by
  constructor <;> decide

/-- Claim C2: presenting a refresh token that decodes to the email of a user
but differs from the stored refresh token of that user makes the route fail
with 401 and null the stored token; a second attempt with the same stale
token fails identically and leaves the state unchanged. -/
theorem c2_stale_refresh_reject_and_clear (db : List UserR)
    (email tok a1 r1 a2 r2 : String) (u : UserR)
    (hfind : find_user_by_email email db = some u)
    (hne : u.refresh_token ≠ some tok) :
    (refresh_token_route email tok a1 r1 db).1
        = .error { status_code := 401, detail := "Invalid refresh token" }
    ∧ find_user_by_email email (refresh_token_route email tok a1 r1 db).2
        = some { u with refresh_token := none }
    ∧ refresh_token_route email tok a2 r2 (refresh_token_route email tok a1 r1 db).2
        = (.error { status_code := 401, detail := "Invalid refresh token" },
           (refresh_token_route email tok a1 r1 db).2) := by
  have h1 := refresh_reject_eq db email tok a1 r1 u hfind hne
  have hfind0 : db.find? (fun v => v.email == email) = some u := hfind
  have hfind2 : find_user_by_email email (update_token u none db)
      = some { u with refresh_token := none } := by
    show (updateFirstBy (fun x => x == u) (fun v => { v with refresh_token := none })
        db).find? (fun v => v.email == email) = some { u with refresh_token := none }
    exact find?_updateFirstBy_eqkey (fun v => v.email == email)
      (fun v => { v with refresh_token := none }) db u hfind0 (fun v => rfl)
  have h3 : update_token { u with refresh_token := none } none (update_token u none db)
      = update_token u none db := by
    apply updateFirstBy_eq_self
    intro x hx
    have hbeq := List.find?_some hx
    simp only [beq_iff_eq] at hbeq
    rw [hbeq]
  have h2 := refresh_reject_eq (update_token u none db) email tok a2 r2
    { u with refresh_token := none } hfind2 (by simp)
  rw [h3] at h2
  rw [h1]
  exact ⟨rfl, hfind2, h2⟩

/-- Claim C2 witness: a user storing token "current" is presented the stale
token "stale"; the route rejects with 401, clears the stored token, and a
second attempt fails identically without changing the state. -/
theorem c2_stale_refresh_reject_and_clear_witness :
    (refresh_token_route "a@b" "stale" "na1" "nr1"
        [{ id := 1, name := "A", last_name := "B", day_of_born := ⟨1990, 1, 1⟩,
           email := "a@b", password := "h", description := "d", avatar := none,
           refresh_token := some "current", confirmed := true }]).1
      = .error { status_code := 401, detail := "Invalid refresh token" }
    ∧ find_user_by_email "a@b" (refresh_token_route "a@b" "stale" "na1" "nr1"
        [{ id := 1, name := "A", last_name := "B", day_of_born := ⟨1990, 1, 1⟩,
           email := "a@b", password := "h", description := "d", avatar := none,
           refresh_token := some "current", confirmed := true }]).2
      = some { id := 1, name := "A", last_name := "B", day_of_born := ⟨1990, 1, 1⟩,
               email := "a@b", password := "h", description := "d", avatar := none,
               refresh_token := none, confirmed := true }
    ∧ refresh_token_route "a@b" "stale" "na2" "nr2"
        (refresh_token_route "a@b" "stale" "na1" "nr1"
          [{ id := 1, name := "A", last_name := "B", day_of_born := ⟨1990, 1, 1⟩,
             email := "a@b", password := "h", description := "d", avatar := none,
             refresh_token := some "current", confirmed := true }]).2
      = (.error { status_code := 401, detail := "Invalid refresh token" },
         (refresh_token_route "a@b" "stale" "na1" "nr1"
           [{ id := 1, name := "A", last_name := "B", day_of_born := ⟨1990, 1, 1⟩,
              email := "a@b", password := "h", description := "d", avatar := none,
              refresh_token := some "current", confirmed := true }]).2) :=
  c2_stale_refresh_reject_and_clear
    [{ id := 1, name := "A", last_name := "B", day_of_born := ⟨1990, 1, 1⟩,
       email := "a@b", password := "h", description := "d", avatar := none,
       refresh_token := some "current", confirmed := true }]
    "a@b" "stale" "na1" "nr1" "na2" "nr2"
    { id := 1, name := "A", last_name := "B", day_of_born := ⟨1990, 1, 1⟩,
      email := "a@b", password := "h", description := "d", avatar := none,
      refresh_token := some "current", confirmed := true }
    rfl (by decide)

/-- Claim C3: signing up with a fresh email creates exactly one new user whose
`confirmed` flag is false and whose stored password is the hash of the
plaintext — it verifies against the plaintext but differs from it; signing up
with an already-registered email fails with 409 and leaves the store
unchanged (no user is created). -/
theorem c3_signup_fresh_and_conflict (new_id : Nat) (avatar : Option String)
    (body : UserModelR) (st : DBState) :
    (find_user_by_email body.email st.users = none →
      ∃ u : UserR,
        (signup new_id avatar body st).1
          = .created u "User successfully created. Check your email for confirmation."
        ∧ u.confirmed = false
        ∧ u.password = get_password_hash body.password
        ∧ verify_password body.password u.password = true
        ∧ u.password ≠ body.password
        ∧ (signup new_id avatar body st).2.users = st.users ++ [u])
    ∧ (∀ w, find_user_by_email body.email st.users = some w →
        signup new_id avatar body st
          = (.conflict { status_code := 409, detail := "Account already exists" }, st)) := by
  constructor
  · intro hnone
    have hs : signup new_id avatar body st
        = (.created
            { id := new_id, name := body.name, last_name := body.last_name,
              day_of_born := body.day_of_born, email := body.email,
              password := get_password_hash body.password, description := body.description,
              avatar := avatar, refresh_token := none, confirmed := false }
            "User successfully created. Check your email for confirmation.",
           { users := st.users ++
              [{ id := new_id, name := body.name, last_name := body.last_name,
                 day_of_born := body.day_of_born, email := body.email,
                 password := get_password_hash body.password, description := body.description,
                 avatar := avatar, refresh_token := none, confirmed := false }],
             contacts := st.contacts.map (fun c =>
               if body.contacts.contains c.id then { c with user_id := some new_id } else c) }) := by
      unfold signup
      rw [hnone]
      rfl
    refine ⟨{ id := new_id, name := body.name, last_name := body.last_name,
              day_of_born := body.day_of_born, email := body.email,
              password := get_password_hash body.password, description := body.description,
              avatar := avatar, refresh_token := none, confirmed := false },
            by rw [hs], rfl, rfl, by simp [verify_password], ?_, by rw [hs]⟩
    intro h
    have hlen := congrArg String.length h
    rw [get_password_hash, String.length_append] at hlen
    have h7 : ("$2b$12$" : String).length = 7 := rfl
    omega
  · intro w hw
    unfold signup
    rw [hw]

/-- Claim C3 witness: a signup into an empty store succeeds with a false
`confirmed` flag and a verifying non-plaintext hash, and a signup whose email
already exists returns the 409 conflict without touching the store. -/
theorem c3_signup_fresh_and_conflict_witness :
    (∃ u : UserR,
        (signup 1 none ⟨"N", "L", ⟨2000, 1, 1⟩, "n@x", "d", "secret1", []⟩ ⟨[], []⟩).1
          = .created u "User successfully created. Check your email for confirmation."
        ∧ u.confirmed = false
        ∧ u.password = get_password_hash "secret1"
        ∧ verify_password "secret1" u.password = true
        ∧ u.password ≠ "secret1"
        ∧ (signup 1 none ⟨"N", "L", ⟨2000, 1, 1⟩, "n@x", "d", "secret1", []⟩ ⟨[], []⟩).2.users
            = [] ++ [u])
    ∧ signup 2 none ⟨"N", "L", ⟨2000, 1, 1⟩, "n@x", "d", "secret1", []⟩
        ⟨[{ id := 1, name := "N", last_name := "L", day_of_born := ⟨2000, 1, 1⟩,
            email := "n@x", password := "ph", description := "d", avatar := none,
            refresh_token := none, confirmed := false }], []⟩
      = (.conflict { status_code := 409, detail := "Account already exists" },
         ⟨[{ id := 1, name := "N", last_name := "L", day_of_born := ⟨2000, 1, 1⟩,
             email := "n@x", password := "ph", description := "d", avatar := none,
             refresh_token := none, confirmed := false }], []⟩) :=
  ⟨(c3_signup_fresh_and_conflict 1 none ⟨"N", "L", ⟨2000, 1, 1⟩, "n@x", "d", "secret1", []⟩
      ⟨[], []⟩).1 rfl,
   (c3_signup_fresh_and_conflict 2 none ⟨"N", "L", ⟨2000, 1, 1⟩, "n@x", "d", "secret1", []⟩
      ⟨[{ id := 1, name := "N", last_name := "L", day_of_born := ⟨2000, 1, 1⟩,
          email := "n@x", password := "ph", description := "d", avatar := none,
          refresh_token := none, confirmed := false }], []⟩).2
      { id := 1, name := "N", last_name := "L", day_of_born := ⟨2000, 1, 1⟩,
        email := "n@x", password := "ph", description := "d", avatar := none,
        refresh_token := none, confirmed := false } rfl⟩

/-- Claim C4: the `confirmed` flag only ever transitions false → true. The
route preserves the number of users, every user confirmed before stays
confirmed after, confirming an already-confirmed email returns the
"already confirmed" outcome with the store untouched, and confirming an
unconfirmed email flips exactly that flag of that user to true. -/
theorem c4_confirmed_flag_monotone (email : String) (db : List UserR) :
    (confirmed_email_route email db).2.length = db.length
    ∧ (∀ i : Nat, ∀ u v : UserR, db[i]? = some u →
        (confirmed_email_route email db).2[i]? = some v →
        u.confirmed = true → v.confirmed = true)
    ∧ (∀ u, find_user_by_email email db = some u → u.confirmed = true →
        confirmed_email_route email db = (.alreadyConfirmed, db))
    ∧ (∀ u, find_user_by_email email db = some u → u.confirmed = false →
        (confirmed_email_route email db).1 = .emailConfirmed
        ∧ find_user_by_email email (confirmed_email_route email db).2
            = some { u with confirmed := true }) := by
  rcases hf : find_user_by_email email db with _ | u0
  · have hr : confirmed_email_route email db
        = (.badRequest { status_code := 400, detail := "Verification error" }, db) := by
      unfold confirmed_email_route
      rw [hf]
    refine ⟨by rw [hr], ?_, ?_, ?_⟩
    · intro i u v hu hv hc
      rw [hr, hu] at hv
      injection hv with h
      rw [← h]
      exact hc
    · intro u hu
      exact Option.noConfusion hu
    · intro u hu
      exact Option.noConfusion hu
  · by_cases hc0 : u0.confirmed
    · have hr : confirmed_email_route email db = (.alreadyConfirmed, db) := by
        unfold confirmed_email_route
        rw [hf]
        simp [hc0]
      refine ⟨by rw [hr], ?_, ?_, ?_⟩
      · intro i u v hu hv hc
        rw [hr, hu] at hv
        injection hv with h
        rw [← h]
        exact hc
      · intro u hu hcu
        exact hr
      · intro u hu hcu
        injection hu with h
        rw [h] at hc0
        rw [hcu] at hc0
        exact Bool.noConfusion hc0
    · have hc0f : u0.confirmed = false := Bool.eq_false_iff.mpr hc0
      have hr : confirmed_email_route email db = (.emailConfirmed, confirmed_email email db) := by
        unfold confirmed_email_route
        rw [hf]
        simp [hc0f]
      refine ⟨?_, ?_, ?_, ?_⟩
      · rw [hr]
        exact length_updateFirstBy _ _ db
      · intro i u v hu hv hc
        rw [hr] at hv
        have hv2 : (updateFirstBy (fun w => w.email == email)
            (fun w => { w with confirmed := true }) db)[i]? = some v := hv
        rcases getElem?_updateFirstBy (fun w => w.email == email)
            (fun w => { w with confirmed := true }) db i with h | h
        · rw [h, hu] at hv2
          injection hv2 with h2
          rw [← h2]
          exact hc
        · rw [h, hu] at hv2
          injection hv2 with h2
          rw [← h2]
      · intro u hu hcu
        injection hu with h
        rw [h] at hc0f
        rw [hcu] at hc0f
        exact Bool.noConfusion hc0f
      · intro u hu hcu
        injection hu with h
        subst h
        refine ⟨by rw [hr], ?_⟩
        rw [hr]
        have hf0 : db.find? (fun w => w.email == email) = some u0 := hf
        show (updateFirstBy (fun w => w.email == email) (fun w => { w with confirmed := true })
            db).find? (fun w => w.email == email) = some { u0 with confirmed := true }
        exact find?_updateFirstBy_same (fun w => w.email == email)
          (fun w => { w with confirmed := true }) db u0 hf0 (fun v => rfl)

/-- Claim C4 witness: confirming an unconfirmed user flips the flag, and
confirming an already-confirmed user returns the distinct outcome and leaves
the store unchanged. -/
theorem c4_confirmed_flag_monotone_witness :
    (confirmed_email_route "a@b"
        [{ id := 1, name := "A", last_name := "B", day_of_born := ⟨1990, 1, 1⟩,
           email := "a@b", password := "h", description := "d", avatar := none,
           refresh_token := none, confirmed := false }]).1 = .emailConfirmed
    ∧ find_user_by_email "a@b" (confirmed_email_route "a@b"
        [{ id := 1, name := "A", last_name := "B", day_of_born := ⟨1990, 1, 1⟩,
           email := "a@b", password := "h", description := "d", avatar := none,
           refresh_token := none, confirmed := false }]).2
      = some { id := 1, name := "A", last_name := "B", day_of_born := ⟨1990, 1, 1⟩,
               email := "a@b", password := "h", description := "d", avatar := none,
               refresh_token := none, confirmed := true }
    ∧ confirmed_email_route "a@b"
        [{ id := 1, name := "A", last_name := "B", day_of_born := ⟨1990, 1, 1⟩,
           email := "a@b", password := "h", description := "d", avatar := none,
           refresh_token := none, confirmed := true }]
      = (.alreadyConfirmed,
         [{ id := 1, name := "A", last_name := "B", day_of_born := ⟨1990, 1, 1⟩,
            email := "a@b", password := "h", description := "d", avatar := none,
            refresh_token := none, confirmed := true }]) :=
  ⟨((c4_confirmed_flag_monotone "a@b"
      [{ id := 1, name := "A", last_name := "B", day_of_born := ⟨1990, 1, 1⟩,
         email := "a@b", password := "h", description := "d", avatar := none,
         refresh_token := none, confirmed := false }]).2.2.2
      { id := 1, name := "A", last_name := "B", day_of_born := ⟨1990, 1, 1⟩,
        email := "a@b", password := "h", description := "d", avatar := none,
        refresh_token := none, confirmed := false } rfl rfl).1,
   ((c4_confirmed_flag_monotone "a@b"
      [{ id := 1, name := "A", last_name := "B", day_of_born := ⟨1990, 1, 1⟩,
         email := "a@b", password := "h", description := "d", avatar := none,
         refresh_token := none, confirmed := false }]).2.2.2
      { id := 1, name := "A", last_name := "B", day_of_born := ⟨1990, 1, 1⟩,
        email := "a@b", password := "h", description := "d", avatar := none,
        refresh_token := none, confirmed := false } rfl rfl).2,
   (c4_confirmed_flag_monotone "a@b"
      [{ id := 1, name := "A", last_name := "B", day_of_born := ⟨1990, 1, 1⟩,
         email := "a@b", password := "h", description := "d", avatar := none,
         refresh_token := none, confirmed := true }]).2.2.1
      { id := 1, name := "A", last_name := "B", day_of_born := ⟨1990, 1, 1⟩,
        email := "a@b", password := "h", description := "d", avatar := none,
        refresh_token := none, confirmed := true } rfl rfl⟩

/-- Claim C5: when every contact with the requested id is owned by user A,
a caller B with a different id gets "not found" (None) from both
`update_contact` and `remove_contact`, and the contacts table is unchanged. -/
theorem c5_contact_ownership_scoping (db : List ContactR) (cid aid : Nat) (b : UserR)
    (body : ContactModelR)
    (howner : ∀ c ∈ db, c.id = cid → c.user_id = some aid)
    (hne : b.id ≠ aid) :
    update_contact cid body db b = (none, db) ∧ remove_contact cid db b = (none, db) := by
  have hnone : db.find? (contactOwnedFilter cid b.id) = none := by
    rw [List.find?_eq_none]
    intro c hc hp
    simp only [contactOwnedFilter, Bool.and_eq_true, beq_iff_eq] at hp
    have h1 := howner c hc hp.1
    rw [h1] at hp
    have h2 : aid = b.id := by injection hp.2
    exact hne h2.symm
  constructor <;> simp [update_contact, remove_contact, hnone]

/-- Claim C5 witness: contact 5 is owned by user 1; user 2 attempting the
update and the removal gets None both times and the row survives intact. -/
theorem c5_contact_ownership_scoping_witness :
    update_contact 5 ⟨"999"⟩ [⟨5, "123", some 1⟩]
        ⟨2, "Bob", "B", ⟨1990, 1, 1⟩, "b@x", "pw", "d", none, none, false⟩
      = (none, [⟨5, "123", some 1⟩])
    ∧ remove_contact 5 [⟨5, "123", some 1⟩]
        ⟨2, "Bob", "B", ⟨1990, 1, 1⟩, "b@x", "pw", "d", none, none, false⟩
      = (none, [⟨5, "123", some 1⟩]) :=
  c5_contact_ownership_scoping [⟨5, "123", some 1⟩] 5 1
    ⟨2, "Bob", "B", ⟨1990, 1, 1⟩, "b@x", "pw", "d", none, none, false⟩ ⟨"999"⟩
    (by decide) (by decide)

/-- Claim C6: a refresh token issued at `now` decodes to its embedded `sub`
claim at any time strictly before its expiry, and fails with the 401
credentials error at any time strictly after it, for every ttl
(`expires_delta`, including the default). -/
theorem c6_refresh_token_roundtrip (sub : String) (expires_delta : Option Nat)
    (now t1 t2 : Nat)
    (h1 : t1 < (create_refresh_token sub expires_delta now).exp)
    (h2 : (create_refresh_token sub expires_delta now).exp < t2) :
    decode_refresh_token (create_refresh_token sub expires_delta now) t1 = .ok sub
    ∧ decode_refresh_token (create_refresh_token sub expires_delta now) t2
        = .error { status_code := 401, detail := "Could not validate credentials" } := by
  have hkey : (create_refresh_token sub expires_delta now).key = SECRET_KEY := rfl
  have hscope : (create_refresh_token sub expires_delta now).scope = "refresh_token" := rfl
  constructor
  · unfold decode_refresh_token jwt_decode
    rw [if_neg (by rw [hkey]; exact fun h => h rfl)]
    rw [if_neg (Nat.not_lt.mpr (Nat.le_of_lt h1))]
    simp [hscope, create_refresh_token]
  · unfold decode_refresh_token jwt_decode
    rw [if_neg (by rw [hkey]; exact fun h => h rfl)]
    rw [if_pos h2]

/-- Claim C6 witness: a token issued at time 0 with a 100-second ttl decodes
to its `sub` at time 10 and fails at time 200. -/
theorem c6_refresh_token_roundtrip_witness :
    (10 : Nat) < (create_refresh_token "a@b" (some 100) 0).exp
    ∧ (create_refresh_token "a@b" (some 100) 0).exp < 200
    ∧ decode_refresh_token (create_refresh_token "a@b" (some 100) 0) 10 = .ok "a@b"
    ∧ decode_refresh_token (create_refresh_token "a@b" (some 100) 0) 200
        = .error { status_code := 401, detail := "Could not validate credentials" } :=
  ⟨by decide, by decide,
   (c6_refresh_token_roundtrip "a@b" (some 100) 0 10 200 (by decide) (by decide)).1,
   (c6_refresh_token_roundtrip "a@b" (some 100) 0 10 200 (by decide) (by decide)).2⟩

/-- Claim C7 counterexample: in `get_email_from_token` an invalid signature
yields status 422 while a scope mismatch yields status 401, so the three
failure checks are not normalized to one status code as the claim states. -/
theorem c7_error_status_counterexample :
    get_email_from_token
        { sub := "a@b", iat := 0, exp := 100, scope := "email_token", key := "wrong-key" } 10
      = .error { status_code := 422, detail := "Invalid token for email verification" }
    ∧ get_email_from_token
        { sub := "a@b", iat := 0, exp := 100, scope := "access_token", key := SECRET_KEY } 10
      = .error { status_code := 401, detail := "Invalid scope for token" }
    ∧ (422 : Nat) ≠ 401 :=
  ⟨rfl, rfl, by decide⟩

/-- Claim C7, amended: every failure of `decode_refresh_token` (bad signature,
expiry, scope mismatch) carries status 401; in `get_email_from_token` a bad
signature or an expired token yields 422 while a scope mismatch yields 401,
so that decoder does reveal which check failed. -/
theorem c7_amended_error_statuses (token : Jwt) (now : Nat) :
    (∀ e, decode_refresh_token token now = .error e → e.status_code = 401)
    ∧ (token.key ≠ SECRET_KEY ∨ token.exp < now →
        get_email_from_token token now
          = .error { status_code := 422, detail := "Invalid token for email verification" })
    ∧ (token.key = SECRET_KEY → ¬ token.exp < now → token.scope ≠ "email_token" →
        get_email_from_token token now
          = .error { status_code := 401, detail := "Invalid scope for token" }) := by
  refine ⟨?_, ?_, ?_⟩
  · intro e he
    unfold decode_refresh_token jwt_decode at he
    by_cases hk : token.key = SECRET_KEY
    · simp only [hk, ne_eq, not_true_eq_false, if_false] at he
      by_cases hx : token.exp < now
      · simp only [hx, if_true] at he
        injection he with h
        rw [← h]
      · simp only [hx, if_false] at he
        by_cases hs : token.scope = "refresh_token"
        · simp [hs] at he
        · simp only [hs, if_false] at he
          injection he with h
          rw [← h]
    · simp only [ne_eq, hk, not_false_eq_true, if_true] at he
      injection he with h
      rw [← h]
  · intro h
    unfold get_email_from_token jwt_decode
    rcases h with hk | hx
    · simp [hk]
    · by_cases hk : token.key = SECRET_KEY
      · simp [hk, hx]
      · simp [hk]
  · intro hk hx hs
    unfold get_email_from_token jwt_decode
    simp [hk, hx, hs]

/-- Claim C7 amended witness: a badly-signed token gets 422 from
`get_email_from_token`, and a well-signed unexpired token of the wrong scope
gets 401. -/
theorem c7_amended_error_statuses_witness :
    get_email_from_token
        { sub := "a", iat := 0, exp := 100, scope := "refresh_token", key := "bad" } 10
      = .error { status_code := 422, detail := "Invalid token for email verification" }
    ∧ get_email_from_token
        { sub := "a", iat := 0, exp := 100, scope := "refresh_token", key := SECRET_KEY } 10
      = .error { status_code := 401, detail := "Invalid scope for token" } :=
  ⟨(c7_amended_error_statuses
      { sub := "a", iat := 0, exp := 100, scope := "refresh_token", key := "bad" } 10).2.1
      (Or.inl (by decide)),
   (c7_amended_error_statuses
      { sub := "a", iat := 0, exp := 100, scope := "refresh_token", key := SECRET_KEY } 10).2.2
      rfl (by decide) (by decide)⟩

/-- Claim C8 counterexample: with one confirmed registered user, requesting
the registered email and requesting an unknown email produce different
messages, so the two runs are distinguishable, contrary to the claim. -/
theorem c8_request_email_counterexample :
    request_email_route "a@b"
        [{ id := 1, name := "A", last_name := "B", day_of_born := ⟨1990, 1, 1⟩,
           email := "a@b", password := "h", description := "d", avatar := none,
           refresh_token := none, confirmed := true }]
      = "Your email is already confirmed"
    ∧ request_email_route "nobody@b"
        [{ id := 1, name := "A", last_name := "B", day_of_born := ⟨1990, 1, 1⟩,
           email := "a@b", password := "h", description := "d", avatar := none,
           refresh_token := none, confirmed := true }]
      = "Check your email for confirmation"
    ∧ ("Your email is already confirmed" : String) ≠ "Check your email for confirmation" := by
  refine ⟨by decide, by decide, by decide⟩

/-- Claim C8, amended: unknown emails and emails of unconfirmed users receive
the same generic acknowledgment, but the email of a confirmed user receives
the distinct "already confirmed" message, which leaks that it is
registered. -/
theorem c8_amended_request_email (email : String) (db : List UserR) :
    (find_user_by_email email db = none →
      request_email_route email db = "Check your email for confirmation")
    ∧ (∀ u, find_user_by_email email db = some u → u.confirmed = false →
        request_email_route email db = "Check your email for confirmation")
    ∧ (∀ u, find_user_by_email email db = some u → u.confirmed = true →
        request_email_route email db = "Your email is already confirmed") := by
  refine ⟨?_, ?_, ?_⟩
  · intro h
    unfold request_email_route
    rw [h]
  · intro u hu hc
    unfold request_email_route
    rw [hu]
    simp [hc]
  · intro u hu hc
    unfold request_email_route
    rw [hu]
    simp [hc]

/-- Claim C8 amended witness: concrete runs of the three cases — unknown
email, unconfirmed user, confirmed user. -/
theorem c8_amended_request_email_witness :
    request_email_route "x@y"
        [{ id := 1, name := "A", last_name := "B", day_of_born := ⟨1990, 1, 1⟩,
           email := "a@b", password := "h", description := "d", avatar := none,
           refresh_token := none, confirmed := false }]
      = "Check your email for confirmation"
    ∧ request_email_route "a@b"
        [{ id := 1, name := "A", last_name := "B", day_of_born := ⟨1990, 1, 1⟩,
           email := "a@b", password := "h", description := "d", avatar := none,
           refresh_token := none, confirmed := false }]
      = "Check your email for confirmation"
    ∧ request_email_route "a@b"
        [{ id := 1, name := "A", last_name := "B", day_of_born := ⟨1990, 1, 1⟩,
           email := "a@b", password := "h", description := "d", avatar := none,
           refresh_token := none, confirmed := true }]
      = "Your email is already confirmed" :=
  ⟨(c8_amended_request_email "x@y" _).1 rfl,
   (c8_amended_request_email "a@b" _).2.1
      { id := 1, name := "A", last_name := "B", day_of_born := ⟨1990, 1, 1⟩,
        email := "a@b", password := "h", description := "d", avatar := none,
        refresh_token := none, confirmed := false } rfl rfl,
   (c8_amended_request_email "a@b" _).2.2
      { id := 1, name := "A", last_name := "B", day_of_born := ⟨1990, 1, 1⟩,
        email := "a@b", password := "h", description := "d", avatar := none,
        refresh_token := none, confirmed := true } rfl rfl⟩

/-- Claim C9: `update_user` never touches the contacts table — the association
between users and contacts is untouched because the queried rows are assigned
to the unmapped attribute `phones` — and every user row is either unchanged
or has exactly its scalar profile fields replaced by the values of the
body. -/
theorem c9_update_user_frame (user_id : Nat) (body : UserModelR) (st : DBState)
    (caller : UserR) :
    (update_user user_id body st caller).2.contacts = st.contacts
    ∧ (update_user user_id body st caller).2.users.length = st.users.length
    ∧ (∀ i : Nat,
        (update_user user_id body st caller).2.users[i]? = st.users[i]?
        ∨ (update_user user_id body st caller).2.users[i]?
            = (st.users[i]?).map (applyUserScalars body)) := by
  rcases hf : st.users.find? (fun u => u.id == user_id && u.id == caller.id) with _ | u
  · simp [update_user, hf]
  · refine ⟨?_, ?_, ?_⟩
    · simp [update_user, hf]
    · simp [update_user, hf, length_updateFirstBy]
    · intro i
      simpa [update_user, hf] using
        getElem?_updateFirstBy (fun v => v.id == user_id && v.id == caller.id)
          (applyUserScalars body) st.users i

/-- Claim C10: a contact created by `create_contact` has a null `user_id`, and
on the resulting store `update_contact` and `remove_contact` on that contact
return None for every caller, because the ownership filter
`user_id == caller.id` can never hold for a null `user_id`. -/
theorem c10_fresh_contact_unreachable (db : List ContactR) (new_id : Nat)
    (body body2 : ContactModelR) (u : UserR)
    (hfresh : ∀ c ∈ db, c.id ≠ new_id) :
    (create_contact new_id body db).1.user_id = none
    ∧ update_contact new_id body2 (create_contact new_id body db).2 u
        = (none, (create_contact new_id body db).2)
    ∧ remove_contact new_id (create_contact new_id body db).2 u
        = (none, (create_contact new_id body db).2) := by
  have hnone : (create_contact new_id body db).2.find? (contactOwnedFilter new_id u.id) = none := by
    rw [List.find?_eq_none]
    intro c hc hp
    simp only [create_contact, List.mem_append, List.mem_singleton] at hc
    simp only [contactOwnedFilter, Bool.and_eq_true, beq_iff_eq] at hp
    rcases hc with hc | hc
    · exact hfresh c hc hp.1
    · rw [hc] at hp
      exact Option.noConfusion hp.2
  refine ⟨rfl, ?_, ?_⟩ <;> simp [update_contact, remove_contact, hnone]

/-- Claim C10 witness: contact 7 is freshly created with a null owner; user 3
can neither update nor remove it. -/
theorem c10_fresh_contact_unreachable_witness :
    (create_contact 7 ⟨"555"⟩ [⟨1, "111", some 3⟩]).1.user_id = none
    ∧ update_contact 7 ⟨"666"⟩ (create_contact 7 ⟨"555"⟩ [⟨1, "111", some 3⟩]).2
        ⟨3, "Cal", "C", ⟨1991, 1, 1⟩, "c@x", "pw", "d", none, none, true⟩
      = (none, (create_contact 7 ⟨"555"⟩ [⟨1, "111", some 3⟩]).2)
    ∧ remove_contact 7 (create_contact 7 ⟨"555"⟩ [⟨1, "111", some 3⟩]).2
        ⟨3, "Cal", "C", ⟨1991, 1, 1⟩, "c@x", "pw", "d", none, none, true⟩
      = (none, (create_contact 7 ⟨"555"⟩ [⟨1, "111", some 3⟩]).2) :=
  c10_fresh_contact_unreachable [⟨1, "111", some 3⟩] 7 ⟨"555"⟩ ⟨"666"⟩
    ⟨3, "Cal", "C", ⟨1991, 1, 1⟩, "c@x", "pw", "d", none, none, true⟩ (by decide)

end ContactsApp
